import Mathlib

/-!
Verification development for the medai-backend service (src/main.py).

The application is a small FastAPI service over a SQLAlchemy store with
four entities per request path: an API-key check, a patient table, a
record table, and a heuristic summary generator.  This file gives a
shallow embedding of the handlers as pure Lean functions over an explicit
store state, and proves or refutes the specified properties.

Modelling conventions:
* `datetime` values are whole seconds since the Unix epoch (`Int`);
  Python `timedelta.days` is floor division by 86400 (`Int.fdiv`).
* The JSON `content` column is carried as its Python string rendering.
  The backend never inspects the structure of `content` (it only
  interpolates it into strings), so an opaque `String` is faithful.
* The SQLAlchemy session context without a commit leaves the store
  untouched; handlers therefore return the (possibly updated) store
  next to the `Except` result, returning the input store on every
  error path.
* `query(...).order_by(col)` is modelled as a stable merge sort on the
  insertion-ordered table, and `.first()` as `List.find?`.
* Lower-casing is modelled per character with `Char.toLower`, which
  agrees with Python `str.lower` on all ASCII keywords the handlers
  compare against.
-/

namespace MedAI

/-- Seconds since the Unix epoch; the model of a Python `datetime`. -/
abbrev Timestamp := Int

/-- Python `str.lower`, restricted to the ASCII range. -/
def pyLower (s : String) : String := ⟨s.data.map Char.toLower⟩

/-- Tests whether `p` is a prefix of the character list `l`. -/
def startsWithL : List Char → List Char → Bool
  | _, [] => true
  | [], _ :: _ => false
  | c :: cs, p :: ps => c == p && startsWithL cs ps

/-- Tests whether `p` occurs as a contiguous run inside `l`. -/
def hasInfixL : List Char → List Char → Bool
  | [], p => startsWithL [] p
  | c :: cs, p => startsWithL (c :: cs) p || hasInfixL cs p

/-- Python `pat in s` on strings: contiguous-substring test. -/
def strContainsSub (s pat : String) : Bool := hasInfixL s.data pat.data

/-- Python truthiness of a string under `or`: an empty string falls back. -/
def pyOr (s d : String) : String := if s = "" then d else s

/-- Python `f-string` rendering of an optional string: `None` when absent. -/
def pyStr : Option String → String
  | none => "None"
  | some s => s

/-- Two-digit zero padding, as in `strftime` fields. -/
def pad2 (n : Nat) : String := if n < 10 then "0" ++ toString n else toString n

/-- Civil date (year, month, day) from a count of days since 1970-01-01,
using the standard Gregorian era decomposition. -/
def civilFromDays (z0 : Int) : Int × Int × Int :=
  let z := z0 + 719468
  let era := z.fdiv 146097
  let doe := z - era * 146097
  let yoe := (doe - doe.fdiv 1460 + doe.fdiv 36524 - doe.fdiv 146096).fdiv 365
  let y := yoe + era * 400
  let doy := doe - (365 * yoe + yoe.fdiv 4 - yoe.fdiv 100)
  let mp := (5 * doy + 2).fdiv 153
  let d := doy - (153 * mp + 2).fdiv 5 + 1
  let m := mp + (if mp < 10 then 3 else -9)
  (y + (if m ≤ 2 then 1 else 0), m, d)

/-- Python `datetime.strftime("%Y-%m-%d %H:%M")` on an epoch-seconds value. -/
def fmtTimestamp (ts : Timestamp) : String :=
  let days := ts.fdiv 86400
  let sod := (ts - 86400 * days).toNat
  let c := civilFromDays days
  toString c.1 ++ "-" ++ pad2 c.2.1.toNat ++ "-" ++ pad2 c.2.2.toNat ++ " "
    ++ pad2 (sod / 3600) ++ ":" ++ pad2 (sod % 3600 / 60)

/-- Python `datetime.isoformat()` on an epoch-seconds value. -/
def isoTimestamp (ts : Timestamp) : String :=
  let days := ts.fdiv 86400
  let sod := (ts - 86400 * days).toNat
  let c := civilFromDays days
  toString c.1 ++ "-" ++ pad2 c.2.1.toNat ++ "-" ++ pad2 c.2.2.toNat ++ "T"
    ++ pad2 (sod / 3600) ++ ":" ++ pad2 (sod % 3600 / 60) ++ ":" ++ pad2 (sod % 60)

/-- Row of the `patients` table. -/
structure Patient where
  id : Nat
  patient_uid : String
  first_name : Option String
  last_name : Option String
  gender : String
  created_at : Timestamp
  deriving DecidableEq

/-- Row of the `records` table. -/
structure Record where
  id : Nat
  patient_id : Nat
  timestamp : Timestamp
  category : String
  content : String
  deriving DecidableEq

/-- The relational store: both tables in insertion order, plus the two
primary-key sequences. -/
structure DB where
  patients : List Patient
  records : List Record
  next_patient_id : Nat
  next_record_id : Nat
  deriving DecidableEq

/-- The empty store. -/
def DB.empty : DB := { patients := [], records := [], next_patient_id := 1, next_record_id := 1 }

/-- Process configuration: the shared API-key secret (`API_KEY` global). -/
structure Config where
  API_KEY : String
  deriving DecidableEq

/-- Dev-only default value of the `API_KEY` environment variable. -/
def API_KEY_default : String := "m3dAI_7YtqgY2WJr9vQdXz"

/-- Failure modes surfaced by a handler: an explicit `HTTPException`, an
uncaught Python `KeyError` from a mandatory dict access (HTTP 500), or an
uncaught database unique-constraint `IntegrityError` (HTTP 500). -/
inductive ApiError where
  | http (status : Nat) (detail : String)
  | keyError (key : String)
  | integrityError
  deriving DecidableEq

/-- Decidable equality of handler results, for evaluating the handlers
on concrete stores. -/
instance {ε α : Type} [DecidableEq ε] [DecidableEq α] : DecidableEq (Except ε α) := fun x y =>
  match x, y with
  | .ok a, .ok b => decidable_of_iff (a = b) (by simp)
  | .error a, .error b => decidable_of_iff (a = b) (by simp)
  | .ok _, .error _ => .isFalse (by simp)
  | .error _, .ok _ => .isFalse (by simp)

/-- Body of `POST /patients`: `patient_uid` is read with a mandatory
dict access, the remaining fields with `.get`. -/
structure PatientPayload where
  patient_uid : Option String
  first_name : Option String
  last_name : Option String
  gender : Option String
  deriving DecidableEq

/-- Body of `POST /patients/{uid}/records`: all three fields are read
with mandatory dict accesses; `timestamp` is carried already parsed. -/
structure RecordPayload where
  category : Option String
  timestamp : Option Timestamp
  content : Option String
  deriving DecidableEq

/-- An incoming HTTP request credential pair: the `x-api-key` header and
the `api_key` query parameter. -/
structure Request where
  header_x_api_key : Option String
  query_api_key : Option String
  deriving DecidableEq

/-- FastAPI binds the handler argument `x_api_key` from the request
header only (`Header(default=None)`); the query string is never read. -/
def requestApiKey (req : Request) : Option String := req.header_x_api_key

/-- The `check_key` guard: raises HTTP 403 unless the supplied value
equals the configured secret exactly. -/
def check_key (cfg : Config) (x_api_key : Option String) : Except ApiError Unit :=
  if x_api_key = some cfg.API_KEY then .ok () else .error (.http 403 "Invalid API key")

/-- The `query(Patient).filter(Patient.patient_uid == uid).first()` lookup. -/
def findPatient (db : DB) (uid : String) : Option Patient :=
  db.patients.find? (fun p => p.patient_uid == uid)

/-- Response body of `POST /patients`. -/
structure CreatePatientResp where
  id : Nat
  patient_uid : String
  deriving DecidableEq

/-- Handler of `POST /patients`: checks the key, builds a row with
`gender` defaulting to "M", and commits; the unique index on
`patient_uid` makes the commit fail with an uncaught `IntegrityError`
when a row with the same UID already exists. -/
def create_patient (cfg : Config) (patient : PatientPayload) (x_api_key : Option String)
    (now : Timestamp) (db : DB) : Except ApiError CreatePatientResp × DB :=
  match check_key cfg x_api_key with
  | .error e => (.error e, db)
  | .ok _ =>
    match patient.patient_uid with
    | none => (.error (.keyError "patient_uid"), db)
    | some uid =>
      if db.patients.any (fun q => q.patient_uid == uid) then
        (.error .integrityError, db)
      else
        let p : Patient :=
          { id := db.next_patient_id, patient_uid := uid,
            first_name := patient.first_name, last_name := patient.last_name,
            gender := patient.gender.getD "M", created_at := now }
        (.ok { id := p.id, patient_uid := uid },
         { db with patients := db.patients ++ [p],
                   next_patient_id := db.next_patient_id + 1 })

/-- One element of the `GET /patients` response list. -/
structure PatientOut where
  patient_uid : String
  first_name : Option String
  last_name : Option String
  gender : String
  created_at : Timestamp
  deriving DecidableEq

/-- Comparison used by `order_by(Patient.created_at.desc())`. -/
def createdDesc (a b : Patient) : Bool := b.created_at ≤ a.created_at

/-- Handler of `GET /patients`: all rows, newest `created_at` first. -/
def list_patients (cfg : Config) (x_api_key : Option String) (db : DB) :
    Except ApiError (List PatientOut) × DB :=
  match check_key cfg x_api_key with
  | .error e => (.error e, db)
  | .ok _ =>
    (.ok ((db.patients.mergeSort createdDesc).map (fun r =>
      { patient_uid := r.patient_uid, first_name := r.first_name,
        last_name := r.last_name, gender := r.gender, created_at := r.created_at })), db)

/-- Response body of `POST /patients/{uid}/records`. -/
structure AddRecordResp where
  status : String
  deriving DecidableEq

/-- Handler of `POST /patients/{uid}/records`: checks the key, resolves
the patient (404 when absent), then reads `category`, `timestamp` and
`content` by mandatory dict access, in that order, before inserting. -/
def add_record (cfg : Config) (patient_uid : String) (record : RecordPayload)
    (x_api_key : Option String) (db : DB) : Except ApiError AddRecordResp × DB :=
  match check_key cfg x_api_key with
  | .error e => (.error e, db)
  | .ok _ =>
    match findPatient db patient_uid with
    | none => (.error (.http 404 "Patient not found"), db)
    | some p =>
      match record.category with
      | none => (.error (.keyError "category"), db)
      | some cat =>
        match record.timestamp with
        | none => (.error (.keyError "timestamp"), db)
        | some ts =>
          match record.content with
          | none => (.error (.keyError "content"), db)
          | some content =>
            let r : Record :=
              { id := db.next_record_id, patient_id := p.id,
                timestamp := ts, category := cat, content := content }
            (.ok { status := "record added" },
             { db with records := db.records ++ [r],
                       next_record_id := db.next_record_id + 1 })

/-- One element of the `GET /patients/{uid}/records` response list. -/
structure RecordOut where
  category : String
  timestamp : Timestamp
  content : String
  deriving DecidableEq

/-- Comparison used by `order_by(Record.timestamp)`. -/
def tsLe (a b : Record) : Bool := a.timestamp ≤ b.timestamp

/-- Rows of the `records` table belonging to the patient with row id `pid`. -/
def patientRecords (db : DB) (pid : Nat) : List Record :=
  db.records.filter (fun r => r.patient_id == pid)

/-- Contract of the source query `order_by(Record.timestamp)`: the rows
come back as some permutation of the table rows that is sorted ascending
by `timestamp`.  The query names no secondary sort key, so the relative
order of rows with equal timestamps is left unspecified by the engine;
any output satisfying this predicate is an admissible execution. -/
def IsOrderByTimestamp (input output : List Record) : Prop :=
  output.Perm input ∧ output.Pairwise (fun a b => a.timestamp ≤ b.timestamp)

/-- The patient record list as the handlers read it back.  The source
query is `order_by(Record.timestamp)` with no secondary key, so the
engine guarantees only `IsOrderByTimestamp` — a timestamp-sorted
permutation with unspecified tie order.  The model refines that
nondeterminism with a stable merge sort over the insertion-ordered
table, which is one admissible execution; no theorem reads more out of
this choice than membership, permutation and timestamp sortedness. -/
def recordsSortedFor (db : DB) (pid : Nat) : List Record :=
  (patientRecords db pid).mergeSort tsLe

/-- Projection of a row to the `GET /patients/{uid}/records` response shape. -/
def recordOut (r : Record) : RecordOut :=
  { category := r.category, timestamp := r.timestamp, content := r.content }

/-- Handler of `GET /patients/{uid}/records`. -/
def get_records (cfg : Config) (patient_uid : String) (x_api_key : Option String)
    (db : DB) : Except ApiError (List RecordOut) × DB :=
  match check_key cfg x_api_key with
  | .error e => (.error e, db)
  | .ok _ =>
    match findPatient db patient_uid with
    | none => (.error (.http 404 "Patient not found"), db)
    | some p => (.ok ((recordsSortedFor db p.id).map recordOut), db)

/-- One timeline line of the summary:
`- {timestamp:%Y-%m-%d %H:%M} {category}: {content}`. -/
def timelineLine (r : Record) : String :=
  "- " ++ fmtTimestamp r.timestamp ++ " " ++ r.category ++ ": " ++ r.content

/-- Lower-cased category, as `(r.category or "").lower()` (the column is
always written from a mandatory payload field, hence never null here). -/
def catLower (r : Record) : String := pyLower r.category

/-- The `stats` object of the summary response. -/
structure Stats where
  pocet_zaznamov : Nat
  pocet_vizit : Nat
  pocet_lab : Nat
  pocet_liecby : Nat
  dlzka_hospitalizacie_dni : Int
  deriving DecidableEq

/-- One element of the `labs` array of the summary response. -/
structure LabOut where
  time : String
  data : String
  deriving DecidableEq

/-- The `GET /ai/summary/{uid}` response body. -/
structure SummaryOut where
  diagnoses : String
  timeline : String
  stats : Stats
  labs : List LabOut
  discharge_draft : String
  deriving DecidableEq

/-- Day count `(recs[-1].timestamp - recs[0].timestamp).days + 1 if recs
else 0` over the chronologically sorted record list: a floor division of
the full datetime difference, not of calendar dates. -/
def num_days_of (recs : List Record) : Int :=
  match recs with
  | [] => 0
  | f :: rest =>
    ((((f :: rest).getLast (by simp)).timestamp - f.timestamp).fdiv 86400) + 1

/-- The f-string template of the `discharge_draft` field. -/
def discharge_draft_of (p : Patient) (diagnoses summary_lines therapies : List String)
    (nd : Int) : String :=
  "\nPREPÚŠŤACIA SPRÁVA – NÁVRH\n\nPacient: " ++ pyStr p.first_name ++ " "
    ++ pyStr p.last_name ++ " (" ++ p.patient_uid ++ ")\nPohlavie: " ++ p.gender
    ++ "\n\nDiagnózy:\n" ++ pyOr (String.intercalate "; " diagnoses) "bez diagnózy"
    ++ "\n\nChronologický priebeh:\n" ++ String.intercalate "\n" summary_lines
    ++ "\n\nLiečba:\n" ++ pyOr (String.intercalate "\n" therapies) "bez liečby"
    ++ "\n\nDĺžka hospitalizácie: " ++ toString nd ++ " dní\n            "

/-- Handler of `GET /ai/summary/{uid}`: one pass over the sorted records
collecting the timeline lines and the `diag`/`lie`/`lab`/`viz` category
buckets, then the statistics and the templated draft letter.  The loop
applies no rule to the record contents; in particular no lab value is
parsed or compared against any threshold anywhere in the handler. -/
def ai_summary (cfg : Config) (patient_uid : String) (x_api_key : Option String)
    (db : DB) : Except ApiError SummaryOut × DB :=
  match check_key cfg x_api_key with
  | .error e => (.error e, db)
  | .ok _ =>
    match findPatient db patient_uid with
    | none => (.error (.http 404 "Patient not found"), db)
    | some p =>
      let recs := recordsSortedFor db p.id
      let summary_lines := recs.map timelineLine
      let diagnoses := (recs.filter (fun r => strContainsSub (catLower r) "diag")).map (fun r => r.content)
      let therapies := (recs.filter (fun r => strContainsSub (catLower r) "lie")).map (fun r => r.content)
      let labs := recs.filter (fun r => strContainsSub (catLower r) "lab")
      let visits := recs.filter (fun r => strContainsSub (catLower r) "viz")
      let nd := num_days_of recs
      let stats : Stats :=
        { pocet_zaznamov := recs.length, pocet_vizit := visits.length,
          pocet_lab := labs.length, pocet_liecby := therapies.length,
          dlzka_hospitalizacie_dni := nd }
      (.ok { diagnoses := pyOr (String.intercalate "\n" diagnoses) "bez diagnózy",
             timeline := String.intercalate "\n" summary_lines,
             stats := stats,
             labs := labs.map (fun r => { time := isoTimestamp r.timestamp, data := r.content }),
             discharge_draft := discharge_draft_of p diagnoses summary_lines therapies nd }, db)

/-- Handler of `GET /health`: returns HTTP 200 with `{"status": "ok"}`
unconditionally.  The handler body reads nothing; the reachability of the
persistence layer is passed in only to record that the response does not
depend on it. -/
def health (_persistence_reachable : Bool) : Nat × String := (200, "ok")

/-- Endpoint `POST /patients` as reached over HTTP: the credential is
taken from the header binding only. -/
def handle_create_patient (cfg : Config) (req : Request) (patient : PatientPayload)
    (now : Timestamp) (db : DB) : Except ApiError CreatePatientResp × DB :=
  create_patient cfg patient (requestApiKey req) now db

/-- Endpoint `GET /patients` as reached over HTTP. -/
def handle_list_patients (cfg : Config) (req : Request) (db : DB) :
    Except ApiError (List PatientOut) × DB :=
  list_patients cfg (requestApiKey req) db

/-- Endpoint `POST /patients/{uid}/records` as reached over HTTP. -/
def handle_add_record (cfg : Config) (req : Request) (patient_uid : String)
    (record : RecordPayload) (db : DB) : Except ApiError AddRecordResp × DB :=
  add_record cfg patient_uid record (requestApiKey req) db

/-- Endpoint `GET /patients/{uid}/records` as reached over HTTP. -/
def handle_get_records (cfg : Config) (req : Request) (patient_uid : String)
    (db : DB) : Except ApiError (List RecordOut) × DB :=
  get_records cfg patient_uid (requestApiKey req) db

/-- Endpoint `GET /ai/summary/{uid}` as reached over HTTP. -/
def handle_ai_summary (cfg : Config) (req : Request) (patient_uid : String)
    (db : DB) : Except ApiError SummaryOut × DB :=
  ai_summary cfg patient_uid (requestApiKey req) db

/-- Modelled from the spec: keyword list of classifier rule 2 (LAB). -/
def labKeywords : List String :=
  ["mg/l", "mmol/l", "µmol/l", "umol/l", "μmol/l", "g/l", "crp", "k+", "na+",
   "hemoglobin", "hb", "glukóza", "gluk", "glyc", "creat", "leu", "tropon"]

/-- Modelled from the spec: keyword list of classifier rule 3 (EKG). -/
def ekgKeywords : List String :=
  ["ekg", "qrs", "st elev", "st depr", "st deprim", "sinus", "tachykard",
   "tachy", "bradykard", "brady", "fibril"]

/-- Modelled from the spec: keyword list of classifier rule 4 (RTG). -/
def rtgKeywords : List String := ["rtg", "röntgen", "rentgen", "x-ray", "skiagraf"]

/-- Modelled from the spec: keyword list of classifier rule 5 (USG). -/
def usgKeywords : List String := ["usg", "sono", "ultrazvuk"]

/-- Modelled from the spec: keyword list of classifier rule 6 (CT). -/
def ctKeywords : List String := ["ct ", "počítačová tomografia"]

/-- Modelled from the spec: keyword list of classifier rule 7 (MR). -/
def mrKeywords : List String := ["mr ", "magnetická rezonancia"]

/-- Modelled from the spec: keyword list of classifier rule 8 (CONSULT). -/
def consultKeywords : List String := ["konzílium", "konzil", "odporúčame", "dop."]

/-- Modelled from the spec: keyword list of classifier rule 9 (THERAPY),
apart from the co-occurrence disjunct handled in `classify`. -/
def therapyKeywords : List String :=
  ["podaná", "podan", "dávka", "dose", "tbl", "ceftriax", "amoxicil", "infuz", "lieč"]

/-- Modelled from the spec: keyword list of classifier rule 10 (VITALS). -/
def vitalsKeywords : List String :=
  ["teplota", "tlak", "dych", "frekv", "sat", "puls", "pulse"]

/-- Modelled from the spec: the Category Classifier of section 4.3, which
is absent from src/main.py.  A pure, case-insensitive keyword match over
the lower-cased content, first rule wins, defaulting to NOTE.  Rule 1
(structured content with an explicit type field) does not apply to the
plain text lines this model feeds it. -/
def classify (content : String) : String :=
  let t := pyLower content
  let has := fun (k : String) => strContainsSub t k
  if labKeywords.any has then "LAB"
  else if ekgKeywords.any has then "EKG"
  else if rtgKeywords.any has then "RTG"
  else if usgKeywords.any has then "USG"
  else if ctKeywords.any has then "CT"
  else if mrKeywords.any has then "MR"
  else if consultKeywords.any has then "CONSULT"
  else if therapyKeywords.any has || (has "mg" && has "i.v.") then "THERAPY"
  else if vitalsKeywords.any has then "VITALS"
  else "NOTE"

/-- Whitespace test used when deciding whether an import line is blank. -/
def isSpaceChar (c : Char) : Bool := c == ' ' || c == '\t' || c == '\r'

/-- Python `str.strip` over a character list. -/
def pyStripL (l : List Char) : List Char :=
  ((l.dropWhile isSpaceChar).reverse.dropWhile isSpaceChar).reverse

/-- Split of a character list at newline characters. -/
def splitNl : List Char → List (List Char)
  | [] => [[]]
  | c :: cs =>
    match splitNl cs with
    | [] => [[]]
    | g :: gs => if c = '\n' then [] :: g :: gs else (c :: g) :: gs

/-- Modelled from the spec: the non-blank lines of a bulk-import payload
(split at newlines, whitespace-only lines dropped). -/
def importLines (text : String) : List String :=
  ((splitNl text.data).filter (fun l => pyStripL l ≠ [])).map (fun l => (⟨l⟩ : String))

/-- Response body of `POST /import`. -/
structure ImportResp where
  imported : Nat
  deriving DecidableEq

/-- Modelled from the spec: the bulk-import endpoint `POST /import`,
which is absent from src/main.py.  Checks the key, resolves the patient
(404 when absent), rejects an all-blank payload (400), and otherwise
stores each non-blank line as an independent record whose category is
the classifier result on that line, returning the imported count. -/
def bulk_import (cfg : Config) (patient_uid : String) (text : String)
    (x_api_key : Option String) (now : Timestamp) (db : DB) :
    Except ApiError ImportResp × DB :=
  match check_key cfg x_api_key with
  | .error e => (.error e, db)
  | .ok _ =>
    match findPatient db patient_uid with
    | none => (.error (.http 404 "Patient not found"), db)
    | some p =>
      let ls := importLines text
      if ls.isEmpty then (.error (.http 400 "empty payload"), db)
      else
        let newRecs := ls.enum.map (fun pr =>
          ({ id := db.next_record_id + pr.1, patient_id := p.id, timestamp := now,
             category := classify pr.2, content := pr.2 } : Record))
        (.ok { imported := ls.length },
         { db with records := db.records ++ newRecs,
                   next_record_id := db.next_record_id + ls.length })

/-- Calendar date of a timestamp, as a count of whole days since the
epoch; two timestamps on the same civil day map to the same number. -/
def calendarDateOf (ts : Timestamp) : Int := ts.fdiv 86400

/-- Modelled from the spec: the day-span statistic as the spec words it,
`(last.date - first.date).days + 1` over calendar dates (0 with no
records).  Stated for comparison against `num_days_of`, which is what
src/main.py computes. -/
def specDaySpan (recs : List Record) : Int :=
  match recs with
  | [] => 0
  | f :: rest =>
    (calendarDateOf (((f :: rest).getLast (by simp)).timestamp)
      - calendarDateOf f.timestamp) + 1

/-! Concrete fixtures for evaluating the handlers. -/

/-- Test configuration with secret "k". -/
def cfgT : Config := { API_KEY := "k" }

/-- A stored patient row with UID "P001". -/
def patT : Patient :=
  { id := 1, patient_uid := "P001", first_name := some "Jana",
    last_name := some "Mala", gender := "F", created_at := 0 }

/-- Store holding exactly the patient "P001" and no records. -/
def dbT : DB := { patients := [patT], records := [], next_patient_id := 2, next_record_id := 1 }

/-- A LAB record naming test CRP with numeric value 150. -/
def labRec150 : Record :=
  { id := 1, patient_id := 1, timestamp := 0, category := "LAB",
    content := "\x7b\"test\": \"CRP\", \"value\": 150\x7d" }

/-- Store holding "P001" with the single CRP-150 LAB record. -/
def dbLab : DB :=
  { patients := [patT], records := [labRec150], next_patient_id := 2, next_record_id := 2 }

/-- First record of the day-span fixture: day 0 at 23:00. -/
def recNight1 : Record :=
  { id := 1, patient_id := 1, timestamp := 82800, category := "NOTE", content := "prijem" }

/-- Second record of the day-span fixture: day 1 at 01:00. -/
def recNight2 : Record :=
  { id := 2, patient_id := 1, timestamp := 90000, category := "NOTE", content := "kontrola" }

/-- Store whose two records straddle midnight two hours apart. -/
def dbSpan : DB :=
  { patients := [patT], records := [recNight1, recNight2],
    next_patient_id := 2, next_record_id := 3 }

/-- Ordering fixture: the record submitted first, with the middle timestamp T2. -/
def recT2 : Record :=
  { id := 1, patient_id := 1, timestamp := 200, category := "EKG", content := "druhy" }

/-- Ordering fixture: the record submitted second, with the least timestamp T1. -/
def recT1 : Record :=
  { id := 2, patient_id := 1, timestamp := 100, category := "NOTE", content := "prvy" }

/-- Ordering fixture: the record submitted third, with the greatest timestamp T3. -/
def recT3 : Record :=
  { id := 3, patient_id := 1, timestamp := 300, category := "LAB", content := "treti" }

/-- Store whose records were submitted in timestamp order T2, T1, T3. -/
def dbOrder : DB :=
  { patients := [patT], records := [recT2, recT1, recT3],
    next_patient_id := 2, next_record_id := 4 }

/-- Tie fixture: the record inserted first, insertion id 1. -/
def recTieA : Record :=
  { id := 1, patient_id := 1, timestamp := 100, category := "NOTE", content := "prvy zapis" }

/-- Tie fixture: the record inserted second, with the same timestamp. -/
def recTieB : Record :=
  { id := 2, patient_id := 1, timestamp := 100, category := "NOTE", content := "druhy zapis" }

/-- Store whose two records carry equal timestamps. -/
def dbTie : DB :=
  { patients := [patT], records := [recTieA, recTieB],
    next_patient_id := 2, next_record_id := 3 }

end MedAI

namespace MedAI

/-! Theorems.  Each claim of the specification is settled below. -/

/-- C4 (amended): `GET /health` always responds HTTP 200 with status
"ok", whatever the persistence state; no connectivity probe exists and
"db_error" is never produced. -/
theorem c4_health_always_ok (b : Bool) : health b = (200, "ok") := rfl

/-- C4 counterexample: with persistence unreachable the payload still
reads "ok", not the claimed "db_error". -/
theorem c4_ce : health false = (200, "ok") ∧ ("ok" : String) ≠ "db_error" :=
  ⟨rfl, by decide⟩

/-- C1 (amended): when the add-record payload omits `category`, the
handler of src/main.py fails with an uncaught KeyError on "category"
(HTTP 500) and stores nothing; no classifier is consulted and an
explicit category is always required. -/
theorem c1_missing_category_keyerror (cfg : Config) (uid : String)
    (payload : RecordPayload) (key : Option String) (db : DB) (p : Patient)
    (hkey : key = some cfg.API_KEY) (hp : findPatient db uid = some p)
    (hcat : payload.category = none) :
    add_record cfg uid payload key db = (.error (.keyError "category"), db) := by
  subst hkey
  simp [add_record, check_key, hp, hcat]

/-- C1 counterexample: posting content "CRP 120 mg/L" without a category
does not store a LAB-classified record; it fails with a KeyError and the
store keeps zero records. -/
theorem c1_ce :
    add_record cfgT "P001"
        { category := none, timestamp := some 0, content := some "CRP 120 mg/L" }
        (some "k") dbT
      = (.error (.keyError "category"), dbT)
    ∧ dbT.records = [] :=
  ⟨by decide, rfl⟩

/-- C1 witness: the amended statement evaluated on the concrete store. -/
theorem c1_witness :
    (some "k" : Option String) = some cfgT.API_KEY
    ∧ findPatient dbT "P001" = some patT
    ∧ (({ category := none, timestamp := some 0, content := some "CRP 120 mg/L" }
        : RecordPayload)).category = none
    ∧ add_record cfgT "P001"
        { category := none, timestamp := some 0, content := some "CRP 120 mg/L" }
        (some "k") dbT
      = (.error (.keyError "category"), dbT) :=
  ⟨rfl, by decide, rfl,
   c1_missing_category_keyerror cfgT "P001"
     { category := none, timestamp := some 0, content := some "CRP 120 mg/L" }
     (some "k") dbT patT rfl (by decide) rfl⟩

/-- C2 (amended): a create-patient call with a UID already present fails
with an uncaught unique-constraint IntegrityError (HTTP 500) — neither
the idempotent return of the existing row nor an explicit Conflict — and
leaves the patient table unchanged, so the row count for that UID is
preserved. -/
theorem c2_duplicate_uid_integrity_error (cfg : Config) (body : PatientPayload)
    (key : Option String) (now : Timestamp) (db : DB) (uid : String)
    (hkey : key = some cfg.API_KEY) (huid : body.patient_uid = some uid)
    (hdup : 0 < db.patients.countP (fun q => q.patient_uid == uid)) :
    create_patient cfg body key now db = (.error .integrityError, db)
    ∧ (create_patient cfg body key now db).2.patients.countP
        (fun q => q.patient_uid == uid)
      = db.patients.countP (fun q => q.patient_uid == uid) := by
  subst hkey
  have hany : db.patients.any (fun q => q.patient_uid == uid) = true := by
    rcases List.countP_pos_iff.mp hdup with ⟨a, ha, hpa⟩
    exact List.any_eq_true.mpr ⟨a, ha, hpa⟩
  constructor <;> simp [create_patient, check_key, huid, hany]

/-- C2 counterexample: recreating "P001" neither returns the existing
row nor fails with Conflict; it surfaces the IntegrityError, with
exactly one "P001" row in the table. -/
theorem c2_ce :
    create_patient cfgT
        { patient_uid := some "P001", first_name := none, last_name := none, gender := none }
        (some "k") 5 dbT
      = (.error .integrityError, dbT)
    ∧ ApiError.integrityError ≠ ApiError.http 409 "Conflict"
    ∧ dbT.patients.countP (fun q => q.patient_uid == "P001") = 1 :=
  ⟨by decide, by decide, by decide⟩

/-- C2 witness: the amended statement evaluated on the concrete store. -/
theorem c2_witness :
    (some "k" : Option String) = some cfgT.API_KEY
    ∧ (({ patient_uid := some "P001", first_name := none, last_name := none,
          gender := none } : PatientPayload)).patient_uid = some "P001"
    ∧ 0 < dbT.patients.countP (fun q => q.patient_uid == "P001")
    ∧ (create_patient cfgT
          { patient_uid := some "P001", first_name := none, last_name := none,
            gender := none } (some "k") 5 dbT
        = (.error .integrityError, dbT)
      ∧ (create_patient cfgT
          { patient_uid := some "P001", first_name := none, last_name := none,
            gender := none } (some "k") 5 dbT).2.patients.countP
            (fun q => q.patient_uid == "P001")
        = dbT.patients.countP (fun q => q.patient_uid == "P001")) :=
  ⟨rfl, rfl, by decide,
   c2_duplicate_uid_integrity_error cfgT
     { patient_uid := some "P001", first_name := none, last_name := none, gender := none }
     (some "k") 5 dbT "P001" rfl rfl (by decide)⟩

/-- C5 (amended): every protected endpoint rejects a request whose
`x-api-key` header is missing or differs from the configured secret,
with HTTP 403 ("Invalid API key"), before any business logic runs and
with the store unchanged; the `api_key` query parameter is never
consulted, and the rejection status is 403, not 401 Unauthorized. -/
theorem c5_bad_key_rejected_403 (cfg : Config) (req : Request) (body : PatientPayload)
    (rp : RecordPayload) (uid : String) (now : Timestamp) (db : DB)
    (hbad : requestApiKey req ≠ some cfg.API_KEY) :
    handle_create_patient cfg req body now db = (.error (.http 403 "Invalid API key"), db)
    ∧ handle_list_patients cfg req db = (.error (.http 403 "Invalid API key"), db)
    ∧ handle_add_record cfg req uid rp db = (.error (.http 403 "Invalid API key"), db)
    ∧ handle_get_records cfg req uid db = (.error (.http 403 "Invalid API key"), db)
    ∧ handle_ai_summary cfg req uid db = (.error (.http 403 "Invalid API key"), db) := by
  refine ⟨?_, ?_, ?_, ?_, ?_⟩ <;>
    simp [handle_create_patient, handle_list_patients, handle_add_record,
          handle_get_records, handle_ai_summary, create_patient, list_patients,
          add_record, get_records, ai_summary, check_key, hbad]

/-- C5 counterexample: supplying the exact configured secret via the
`api_key` query parameter alone is rejected — the query parameter is
not an accepted credential — and with status 403, not Unauthorized 401. -/
theorem c5_ce :
    handle_create_patient cfgT { header_x_api_key := none, query_api_key := some "k" }
        { patient_uid := some "P002", first_name := none, last_name := none, gender := none }
        0 dbT
      = (.error (.http 403 "Invalid API key"), dbT)
    ∧ cfgT.API_KEY = "k"
    ∧ (403 : Nat) ≠ 401 :=
  ⟨by decide, rfl, by decide⟩

/-- C5 witness: the amended statement evaluated on a concrete bad-header
request. -/
theorem c5_witness :
    requestApiKey { header_x_api_key := some "wrong", query_api_key := none }
      ≠ some cfgT.API_KEY
    ∧ handle_create_patient cfgT { header_x_api_key := some "wrong", query_api_key := none }
        { patient_uid := some "P002", first_name := none, last_name := none, gender := none }
        0 dbT
      = (.error (.http 403 "Invalid API key"), dbT) :=
  ⟨by decide,
   (c5_bad_key_rejected_403 cfgT { header_x_api_key := some "wrong", query_api_key := none }
      { patient_uid := some "P002", first_name := none, last_name := none, gender := none }
      { category := none, timestamp := none, content := none } "P001" 0 dbT (by decide)).1⟩

/-- C3 (amended): the summary generator applies no numeric interpretive
rule: the timeline is exactly the newline join of one plain line
`- timestamp category: content` per chronological record, whatever the
contents — in particular a LAB entry naming CRP with value ≥ 100 gets no
infection-suspicion annotation, because no rule inspects any value. -/
theorem c3_no_numeric_rule (cfg : Config) (uid : String) (key : Option String)
    (db : DB) (p : Patient)
    (hkey : key = some cfg.API_KEY) (hp : findPatient db uid = some p) :
    (ai_summary cfg uid key db).1.toOption.map (fun o => o.timeline)
      = some (String.intercalate "\n" ((recordsSortedFor db p.id).map timelineLine)) := by
  subst hkey
  simp [ai_summary, check_key, hp, Except.toOption]

unseal List.merge List.mergeSort in
/-- C3 counterexample: a LAB record with test "CRP" and value 150
produces a timeline equal to its single plain line, with no appended
infection-suspicion annotation of any kind. -/
theorem c3_ce :
    (ai_summary cfgT "P001" (some "k") dbLab).1.toOption.map (fun o => o.timeline)
      = some "- 1970-01-01 00:00 LAB: \x7b\"test\": \"CRP\", \"value\": 150\x7d"
    ∧ timelineLine labRec150
      = "- 1970-01-01 00:00 LAB: \x7b\"test\": \"CRP\", \"value\": 150\x7d" := by
  exact ⟨by decide, by decide⟩

/-- C3 witness: the amended statement evaluated on the CRP-150 store. -/
theorem c3_witness :
    (some "k" : Option String) = some cfgT.API_KEY
    ∧ findPatient dbLab "P001" = some patT
    ∧ (ai_summary cfgT "P001" (some "k") dbLab).1.toOption.map (fun o => o.timeline)
      = some (String.intercalate "\n" ((recordsSortedFor dbLab patT.id).map timelineLine)) :=
  ⟨rfl, by decide, c3_no_numeric_rule cfgT "P001" (some "k") dbLab patT rfl (by decide)⟩

/-- C7 (amended): the day-span statistic is computed from the full first
and last datetimes, `(last.timestamp - first.timestamp).days + 1` with
`.days` flooring the difference to whole 86400-second units — not from a
calendar-date subtraction — and is 0 when the patient has no records. -/
theorem c7_day_span_from_datetimes (cfg : Config) (uid : String) (key : Option String)
    (db : DB) (p : Patient)
    (hkey : key = some cfg.API_KEY) (hp : findPatient db uid = some p) :
    (ai_summary cfg uid key db).1.toOption.map (fun o => o.stats.dlzka_hospitalizacie_dni)
      = some (num_days_of (recordsSortedFor db p.id))
    ∧ num_days_of ([] : List Record) = 0 := by
  subst hkey
  exact ⟨by simp [ai_summary, check_key, hp, Except.toOption], rfl⟩

unseal List.merge List.mergeSort in
/-- C7 counterexample: two records two hours apart across midnight
(23:00 and 01:00 the next day) give day-span 1 in the code, while the
claimed calendar-date subtraction gives (1 - 0) + 1 = 2. -/
theorem c7_ce :
    (ai_summary cfgT "P001" (some "k") dbSpan).1.toOption.map
        (fun o => o.stats.dlzka_hospitalizacie_dni)
      = some 1
    ∧ specDaySpan (recordsSortedFor dbSpan patT.id) = 2
    ∧ (1 : Int) ≠ 2 := by
  exact ⟨by decide, by decide, by decide⟩

/-- C7 witness: the amended statement evaluated on the midnight store. -/
theorem c7_witness :
    (some "k" : Option String) = some cfgT.API_KEY
    ∧ findPatient dbSpan "P001" = some patT
    ∧ ((ai_summary cfgT "P001" (some "k") dbSpan).1.toOption.map
          (fun o => o.stats.dlzka_hospitalizacie_dni)
        = some (num_days_of (recordsSortedFor dbSpan patT.id))
       ∧ num_days_of ([] : List Record) = 0) :=
  ⟨rfl, by decide, c7_day_span_from_datetimes cfgT "P001" (some "k") dbSpan patT rfl (by decide)⟩

/-- C9: for an existing patient with zero records the summary generator
returns a well-formed document without failing: the diagnoses field and
the draft sections carry their placeholders ("bez diagnózy",
"bez liečby"), the timeline is empty and every statistic is zero. -/
theorem c9_summary_empty_placeholders (cfg : Config) (uid : String) (key : Option String)
    (db : DB) (p : Patient)
    (hkey : key = some cfg.API_KEY) (hp : findPatient db uid = some p)
    (hempty : patientRecords db p.id = []) :
    ai_summary cfg uid key db
      = (.ok { diagnoses := "bez diagnózy", timeline := "",
               stats := { pocet_zaznamov := 0, pocet_vizit := 0, pocet_lab := 0,
                          pocet_liecby := 0, dlzka_hospitalizacie_dni := 0 },
               labs := [],
               discharge_draft := discharge_draft_of p [] [] [] 0 }, db)
    ∧ pyOr (String.intercalate "; " ([] : List String)) "bez diagnózy" = "bez diagnózy"
    ∧ pyOr (String.intercalate "\n" ([] : List String)) "bez liečby" = "bez liečby" := by
  subst hkey
  have hs : recordsSortedFor db p.id = [] := by
    rw [recordsSortedFor, hempty]
    exact (List.mergeSort_perm [] tsLe).eq_nil
  refine ⟨?_, by decide, by decide⟩
  have hi1 : String.intercalate "\n" ([] : List String) = "" := rfl
  have hi2 : String.intercalate "; " ([] : List String) = "" := rfl
  simp [ai_summary, check_key, hp, hs, num_days_of, pyOr, hi1, hi2]

/-- C9 witness: the statement evaluated on the record-less store. -/
theorem c9_witness :
    (some "k" : Option String) = some cfgT.API_KEY
    ∧ findPatient dbT "P001" = some patT
    ∧ patientRecords dbT patT.id = []
    ∧ (ai_summary cfgT "P001" (some "k") dbT
        = (.ok { diagnoses := "bez diagnózy", timeline := "",
                 stats := { pocet_zaznamov := 0, pocet_vizit := 0, pocet_lab := 0,
                            pocet_liecby := 0, dlzka_hospitalizacie_dni := 0 },
                 labs := [],
                 discharge_draft := discharge_draft_of patT [] [] [] 0 }, dbT)
       ∧ pyOr (String.intercalate "; " ([] : List String)) "bez diagnózy" = "bez diagnózy"
       ∧ pyOr (String.intercalate "\n" ([] : List String)) "bez liečby" = "bez liečby") :=
  ⟨rfl, by decide, rfl,
   c9_summary_empty_placeholders cfgT "P001" (some "k") dbT patT rfl (by decide) rfl⟩

/-- The `GET /patients` response contains, for every stored patient row,
an element carrying that row's UID and gender. -/
theorem list_patients_mem (cfg : Config) (key : Option String) (db : DB)
    (hkey : key = some cfg.API_KEY) (p : Patient) (hp : p ∈ db.patients) :
    ∃ o ∈ ((list_patients cfg key db).1.toOption.getD []),
      o.patient_uid = p.patient_uid ∧ o.gender = p.gender := by
  subst hkey
  refine ⟨{ patient_uid := p.patient_uid, first_name := p.first_name,
            last_name := p.last_name, gender := p.gender,
            created_at := p.created_at }, ?_, rfl, rfl⟩
  have hli : (list_patients cfg (some cfg.API_KEY) db).1
      = .ok ((db.patients.mergeSort createdDesc).map (fun r =>
          { patient_uid := r.patient_uid, first_name := r.first_name,
            last_name := r.last_name, gender := r.gender,
            created_at := r.created_at })) := by
    simp [list_patients, check_key]
  rw [hli]
  simp only [Except.toOption, Option.getD]
  exact List.mem_map_of_mem _ (List.mem_mergeSort.mpr hp)

/-- C10: a create-patient body omitting `gender` stores the patient with
gender the literal "M", and `GET /patients` subsequently returns that
patient with gender "M". -/
theorem c10_gender_defaults_M (cfg : Config) (body : PatientPayload)
    (key key2 : Option String) (now : Timestamp) (db : DB) (uid : String)
    (hkey : key = some cfg.API_KEY) (hkey2 : key2 = some cfg.API_KEY)
    (huid : body.patient_uid = some uid) (hg : body.gender = none)
    (hfresh : db.patients.any (fun q => q.patient_uid == uid) = false) :
    ∃ db2 : DB,
      create_patient cfg body key now db
        = (.ok { id := db.next_patient_id, patient_uid := uid }, db2)
      ∧ (∃ p ∈ db2.patients, p.patient_uid = uid ∧ p.gender = "M")
      ∧ (∃ o ∈ ((list_patients cfg key2 db2).1.toOption.getD []),
          o.patient_uid = uid ∧ o.gender = "M") := by
  subst hkey hkey2
  have hg2 : body.gender.getD "M" = "M" := by rw [hg]; rfl
  refine ⟨{ db with
      patients := db.patients ++
        [{ id := db.next_patient_id, patient_uid := uid, first_name := body.first_name,
           last_name := body.last_name, gender := body.gender.getD "M", created_at := now }],
      next_patient_id := db.next_patient_id + 1 }, ?_, ?_, ?_⟩
  · simp [create_patient, check_key, huid, hfresh]
  · refine ⟨{ id := db.next_patient_id, patient_uid := uid,
              first_name := body.first_name, last_name := body.last_name,
              gender := body.gender.getD "M", created_at := now }, ?_, rfl, hg2⟩
    exact List.mem_append_right _ (List.mem_singleton.mpr rfl)
  · obtain ⟨o, ho, h1, h2⟩ := list_patients_mem cfg (some cfg.API_KEY)
      { db with
        patients := db.patients ++
          [{ id := db.next_patient_id, patient_uid := uid, first_name := body.first_name,
             last_name := body.last_name, gender := body.gender.getD "M", created_at := now }],
        next_patient_id := db.next_patient_id + 1 } rfl
      { id := db.next_patient_id, patient_uid := uid, first_name := body.first_name,
        last_name := body.last_name, gender := body.gender.getD "M", created_at := now }
      (List.mem_append_right _ (List.mem_singleton.mpr rfl))
    exact ⟨o, ho, by rw [h1], by rw [h2, hg2]⟩

/-- C6: bulk import of a text payload whose non-blank lines number N
skips the blank lines, stores exactly N records for the patient — each
carrying one line as content with the classifier result on that line as
category — and returns imported = N. -/
theorem c6_bulk_import_counts (cfg : Config) (uid : String) (text : String)
    (key : Option String) (now : Timestamp) (db : DB) (p : Patient)
    (hkey : key = some cfg.API_KEY) (hp : findPatient db uid = some p)
    (hne : importLines text ≠ []) :
    ∃ db2 : DB,
      bulk_import cfg uid text key now db
        = (.ok { imported := (importLines text).length }, db2)
      ∧ db2.records = db.records ++ (importLines text).enum.map (fun pr =>
          ({ id := db.next_record_id + pr.1, patient_id := p.id, timestamp := now,
             category := classify pr.2, content := pr.2 } : Record))
      ∧ (patientRecords db2 p.id).length
          = (patientRecords db p.id).length + (importLines text).length := by
  subst hkey
  have hfalse : (importLines text).isEmpty = false := by
    cases h : importLines text with
    | nil => exact absurd h hne
    | cons a l => rfl
  refine ⟨{ db with
      records := db.records ++ (importLines text).enum.map (fun pr =>
        ({ id := db.next_record_id + pr.1, patient_id := p.id, timestamp := now,
           category := classify pr.2, content := pr.2 } : Record)),
      next_record_id := db.next_record_id + (importLines text).length }, ?_, rfl, ?_⟩
  · simp [bulk_import, check_key, hp, hfalse]
  · have hall : ((importLines text).enum.map (fun pr =>
        ({ id := db.next_record_id + pr.1, patient_id := p.id, timestamp := now,
           category := classify pr.2, content := pr.2 } : Record))).filter
          (fun r => r.patient_id == p.id)
        = (importLines text).enum.map (fun pr =>
          ({ id := db.next_record_id + pr.1, patient_id := p.id, timestamp := now,
             category := classify pr.2, content := pr.2 } : Record)) := by
      apply List.filter_eq_self.mpr
      intro r hr
      rcases List.mem_map.mp hr with ⟨pr, _, hpr⟩
      rw [← hpr]
      simp
    simp [patientRecords, List.filter_append, hall]

unseal List.merge List.mergeSort in
/-- C6 witness: importing three non-blank lines among blank ones into
the concrete store, with each line classified independently
(LAB, EKG, NOTE). -/
theorem c6_witness :
    (some "k" : Option String) = some cfgT.API_KEY
    ∧ findPatient dbT "P001" = some patT
    ∧ importLines "CRP 120 mg/L\n\nEKG: sinus tachykardia\n  \nbez nálezu\n" ≠ []
    ∧ (∃ db2 : DB,
        bulk_import cfgT "P001" "CRP 120 mg/L\n\nEKG: sinus tachykardia\n  \nbez nálezu\n"
            (some "k") 40 dbT
          = (.ok { imported :=
              (importLines "CRP 120 mg/L\n\nEKG: sinus tachykardia\n  \nbez nálezu\n").length }, db2)
        ∧ db2.records = dbT.records ++
            (importLines "CRP 120 mg/L\n\nEKG: sinus tachykardia\n  \nbez nálezu\n").enum.map
              (fun pr =>
                ({ id := dbT.next_record_id + pr.1, patient_id := patT.id, timestamp := 40,
                   category := classify pr.2, content := pr.2 } : Record))
        ∧ (patientRecords db2 patT.id).length
            = (patientRecords dbT patT.id).length
              + (importLines "CRP 120 mg/L\n\nEKG: sinus tachykardia\n  \nbez nálezu\n").length)
    ∧ (importLines "CRP 120 mg/L\n\nEKG: sinus tachykardia\n  \nbez nálezu\n").length = 3
    ∧ (importLines "CRP 120 mg/L\n\nEKG: sinus tachykardia\n  \nbez nálezu\n").map classify
        = ["LAB", "EKG", "NOTE"] :=
  ⟨rfl, by decide, by decide,
   c6_bulk_import_counts cfgT "P001" "CRP 120 mg/L\n\nEKG: sinus tachykardia\n  \nbez nálezu\n"
     (some "k") 40 dbT patT rfl (by decide) (by decide),
   by decide, by decide⟩

/-- The record comparison by timestamp is transitive. -/
theorem tsLe_trans : ∀ a b c : Record, tsLe a b → tsLe b c → tsLe a c := by
  intro a b c hab hbc
  simp only [tsLe, decide_eq_true_eq] at hab hbc ⊢
  exact le_trans hab hbc

/-- The record comparison by timestamp is total. -/
theorem tsLe_total : ∀ a b : Record, tsLe a b || tsLe b a := by
  intro a b
  rcases le_total a.timestamp b.timestamp with h | h
  · have hd : tsLe a b := decide_eq_true h
    simp [hd]
  · have hd : tsLe b a := decide_eq_true h
    simp [hd]

/-- Two timestamp-sorted lists that are permutations of each other and
whose timestamps are pairwise distinct are equal: with distinct
timestamps the contract of `order_by(Record.timestamp)` determines the
output uniquely, with no appeal to any tie-break. -/
theorem sorted_perm_eq_of_distinct_ts : ∀ {l1 l2 : List Record},
    l1.Perm l2
    → l1.Pairwise (fun a b => a.timestamp ≤ b.timestamp)
    → l2.Pairwise (fun a b => a.timestamp ≤ b.timestamp)
    → l1.Pairwise (fun a b => a.timestamp ≠ b.timestamp)
    → l1 = l2 := by
  intro l1
  induction l1 with
  | nil =>
    intro l2 hperm _ _ _
    exact (List.Perm.eq_nil hperm.symm).symm
  | cons a t1 ih =>
    intro l2 hperm hs1 hs2 hd1
    cases l2 with
    | nil =>
      have hcontra := List.Perm.eq_nil hperm
      simp at hcontra
    | cons b t2 =>
      rcases eq_or_ne a b with rfl | hab
      · have ht : t1 = t2 :=
          ih hperm.cons_inv hs1.of_cons hs2.of_cons hd1.of_cons
        rw [ht]
      · have hbt1 : b ∈ t1 := by
          rcases List.mem_cons.mp (hperm.symm.subset (List.mem_cons_self b t2)) with h | h
          · exact absurd h.symm hab
          · exact h
        have hat2 : a ∈ t2 := by
          rcases List.mem_cons.mp (hperm.subset (List.mem_cons_self a t1)) with h | h
          · exact absurd h hab
          · exact h
        have h1 : a.timestamp ≤ b.timestamp := (List.pairwise_cons.mp hs1).1 b hbt1
        have h2 : b.timestamp ≤ a.timestamp := (List.pairwise_cons.mp hs2).1 a hat2
        have hne : a.timestamp ≠ b.timestamp := (List.pairwise_cons.mp hd1).1 b hbt1
        exact absurd (le_antisymm h1 h2) hne

/-- C8 (amended): list-records returns the projection of some
permutation of the patient's rows sorted ascending by timestamp — the
full guarantee of `order_by(Record.timestamp)`; the relative order of
records with equal timestamps is left unspecified by the program.  That
guarantee alone determines the output when the timestamps are pairwise
distinct: any two admissible orderings coincide, so records with
distinct timestamps T1 < T2 < T3 submitted as T2, T1, T3 come back as
T1, T2, T3. -/
theorem c8_records_sorted_by_timestamp (cfg : Config) (uid : String) (key : Option String)
    (db : DB) (p : Patient)
    (hkey : key = some cfg.API_KEY) (hp : findPatient db uid = some p) :
    (∃ out, get_records cfg uid key db = (.ok (out.map recordOut), db)
      ∧ IsOrderByTimestamp (patientRecords db p.id) out)
    ∧ ∀ out1 out2, IsOrderByTimestamp (patientRecords db p.id) out1
        → IsOrderByTimestamp (patientRecords db p.id) out2
        → (patientRecords db p.id).Pairwise (fun x y => x.timestamp ≠ y.timestamp)
        → out1 = out2 := by
  subst hkey
  constructor
  · refine ⟨recordsSortedFor db p.id, by simp [get_records, check_key, hp], ?_, ?_⟩
    · exact List.mergeSort_perm _ _
    · exact (List.sorted_mergeSort tsLe_trans tsLe_total (patientRecords db p.id)).imp
        (fun hb => of_decide_eq_true hb)
  · intro out1 out2 h1 h2 hdist
    have hsymm : ∀ {x y : Record}, x.timestamp ≠ y.timestamp → y.timestamp ≠ x.timestamp :=
      fun h => h.symm
    have hd1 : out1.Pairwise (fun x y => x.timestamp ≠ y.timestamp) :=
      (List.Perm.pairwise_iff hsymm h1.1).mpr hdist
    exact sorted_perm_eq_of_distinct_ts (h1.1.trans h2.1.symm) h1.2 h2.2 hd1

/-- C8 counterexample: with two records sharing one timestamp, the
order `[second insert, first insert]` satisfies everything the query
`order_by(Record.timestamp)` guarantees, yet violates the claimed
insertion-id tie-break — the tie-break is not a property the program
provides. -/
theorem c8_ce :
    IsOrderByTimestamp (patientRecords dbTie patT.id) [recTieB, recTieA]
    ∧ ¬ ([recTieB, recTieA].Pairwise (fun x y =>
          x.timestamp < y.timestamp ∨ (x.timestamp = y.timestamp ∧ x.id < y.id)))
    ∧ recTieA.id < recTieB.id
    ∧ recTieA.timestamp = recTieB.timestamp := by
  have hpr : patientRecords dbTie patT.id = [recTieA, recTieB] := by decide
  refine ⟨⟨?_, by decide⟩, by decide, by decide, by decide⟩
  rw [hpr]
  exact List.Perm.swap recTieA recTieB []

unseal List.merge List.mergeSort in
/-- C8 witness: on the store whose three distinct-timestamp records were
submitted in order T2, T1, T3, the amended statement applies and the
response is T1, T2, T3. -/
theorem c8_witness :
    (some "k" : Option String) = some cfgT.API_KEY
    ∧ findPatient dbOrder "P001" = some patT
    ∧ ((∃ out, get_records cfgT "P001" (some "k") dbOrder
          = (.ok (out.map recordOut), dbOrder)
        ∧ IsOrderByTimestamp (patientRecords dbOrder patT.id) out)
       ∧ ∀ out1 out2, IsOrderByTimestamp (patientRecords dbOrder patT.id) out1
          → IsOrderByTimestamp (patientRecords dbOrder patT.id) out2
          → (patientRecords dbOrder patT.id).Pairwise (fun x y => x.timestamp ≠ y.timestamp)
          → out1 = out2)
    ∧ (patientRecords dbOrder patT.id).Pairwise (fun x y => x.timestamp ≠ y.timestamp)
    ∧ get_records cfgT "P001" (some "k") dbOrder
        = (.ok [recordOut recT1, recordOut recT2, recordOut recT3], dbOrder)
    ∧ recT1.timestamp < recT2.timestamp ∧ recT2.timestamp < recT3.timestamp :=
  ⟨rfl, by decide,
   c8_records_sorted_by_timestamp cfgT "P001" (some "k") dbOrder patT rfl (by decide),
   by decide, by decide, by decide, by decide⟩

/-- C10 witness: the statement evaluated on a concrete store and body. -/
theorem c10_witness :
    (some "k" : Option String) = some cfgT.API_KEY
    ∧ (({ patient_uid := some "P009", first_name := some "Eva", last_name := none,
          gender := none } : PatientPayload)).patient_uid = some "P009"
    ∧ (({ patient_uid := some "P009", first_name := some "Eva", last_name := none,
          gender := none } : PatientPayload)).gender = none
    ∧ dbT.patients.any (fun q => q.patient_uid == "P009") = false
    ∧ ∃ db2 : DB,
        create_patient cfgT
          { patient_uid := some "P009", first_name := some "Eva", last_name := none,
            gender := none } (some "k") 7 dbT
          = (.ok { id := dbT.next_patient_id, patient_uid := "P009" }, db2)
        ∧ (∃ p ∈ db2.patients, p.patient_uid = "P009" ∧ p.gender = "M")
        ∧ (∃ o ∈ ((list_patients cfgT (some "k") db2).1.toOption.getD []),
            o.patient_uid = "P009" ∧ o.gender = "M") :=
  ⟨rfl, rfl, rfl, by decide,
   c10_gender_defaults_M cfgT
     { patient_uid := some "P009", first_name := some "Eva", last_name := none, gender := none }
     (some "k") (some "k") 7 dbT "P009" rfl rfl rfl rfl (by decide)⟩

end MedAI
